import Mathlib

/-!
Verification development for the mukkai delivery frontend connectivity layer.

The development shallowly embeds the two source files:
* the API client wrapper (`src/unnamed/part_000`): environment detection,
  base-URL selection, request/response interceptors, the connectivity probe
  `testBackendConnection`, and the `axiosWithFallback.get` / `.post` wrappers;
* the proxy/static server (`src/server.js`): the `onProxyReq` body-framing
  hooks and the `onError` handlers of the `/api` and `/open-api` routes.

Network effects are modelled by passing each HTTP attempt's outcome (a server
response, or a client error object) as an explicit parameter; browser storage
(`localStorage`) and the `window.location.href` navigation are threaded as
explicit state.
-/

namespace Mukkai

/-! ### JavaScript string `includes` -/

/-- Tests whether the haystack starts with the needle (character lists). -/
def startsWithChars : List Char → List Char → Bool
  | _, [] => true
  | [], _ :: _ => false
  | h :: hs, n :: ns => h == n && startsWithChars hs ns

/-- Tests whether the needle occurs contiguously anywhere in the haystack. -/
def containsChars : List Char → List Char → Bool
  | [], needle => needle.isEmpty
  | h :: hs, needle => startsWithChars (h :: hs) needle || containsChars hs needle

/-- JavaScript `String.prototype.includes`: substring containment. -/
def strIncludes (s sub : String) : Bool := containsChars s.data sub.data

/-- The optional-chaining form `m?.includes(sub)` used on `error.message`:
`undefined` yields a falsy result. -/
def optIncludes (m : Option String) (sub : String) : Bool :=
  match m with
  | some s => strIncludes s sub
  | none => false

/-! ### Environment detection and base URLs (part_000 lines 16-24) -/

/-- The runtime environment visible to the client bundle: the `NODE_ENV`
variable and, when a browser `window` exists, its `location.hostname`. -/
structure Env where
  nodeEnv :  Option String
  windowHostname : Option String
deriving DecidableEq

/-- Source flag isProduction: `NODE_ENV === 'production' || typeof window !== 'undefined'
&& window.location.hostname.includes('herokuapp.com')`. -/
def isProduction (e : Env) : Bool :=
  e.nodeEnv == some "production" ||
    (match e.windowHostname with
     | some h => strIncludes h "herokuapp.com"
     | none => false)

/-- Source constant FALLBACK_API_BASE_URL: the absolute backend origin. -/
def FALLBACK_API_BASE_URL : String :=
  "https://mukkai-backend-api-f9dc2d5aad02.herokuapp.com"

/-- Source constant API_BASE_URL: empty (same-origin, proxied) in production, otherwise the
absolute backend origin. -/
def API_BASE_URL (e : Env) : String :=
  if isProduction e then ""
  else "https://mukkai-backend-api-f9dc2d5aad02.herokuapp.com"

/-! ### localStorage -/

/-- Browser `localStorage`, as an association list of key/value pairs. -/
abbrev Storage := List (String × String)

/-- Association-list lookup by key. -/
def lookupKV (k : String) : List (String × String) → Option String
  | [] => none
  | (k2, v) :: rest => if k = k2 then some v else lookupKV k rest

/-- Association-list removal of every entry with the given key. -/
def removeKV (k : String) : List (String × String) → List (String × String)
  | [] => []
  | (k2, v) :: rest => if k2 = k then removeKV k rest else (k2, v) :: removeKV k rest

namespace localStorage

/-- Reads a stored string (`localStorage.getItem`): the value, or null. -/
def getItem (s : Storage) (k : String) : Option String := lookupKV k s

/-- Removes a stored entry (`localStorage.removeItem`). -/
def removeItem (s : Storage) (k : String) : Storage := removeKV k s

end localStorage

/-- JavaScript truthiness of a string-or-null value: null and the empty
string are falsy. -/
def truthy : Option String → Bool
  | none => false
  | some s => !s.isEmpty

/-! ### Request headers and the request interceptor (part_000 lines 58-86) -/

/-- The mutable header map of an outgoing request config. -/
structure ReqHeaders where
  entries : List (String × String)
deriving DecidableEq

/-- Sets a header, replacing any previous value (`config.headers[k] = v`). -/
def setHeader (h : ReqHeaders) (k v : String) : ReqHeaders :=
  ⟨removeKV k h.entries ++ [(k, v)]⟩

/-- Header lookup. -/
def getHeader (h : ReqHeaders) (k : String) : Option String :=
  lookupKV k h.entries

/-- The request interceptor installed by `addRequestInterceptor` on both the
primary and the fallback instance: read `accessToken`, fall back to
`storeUserAccessToken` when falsy, and when the resulting token is truthy
attach it verbatim as the `authorization-token` header. Reads storage, never
writes it. -/
def requestInterceptor (s : Storage) (h : ReqHeaders) : ReqHeaders :=
  let token0 := localStorage.getItem s "accessToken"
  let token := if truthy token0 then token0
               else localStorage.getItem s "storeUserAccessToken"
  match token with
  | some t => if t.isEmpty then h else setHeader h "authorization-token" t
  | none => h

/-! ### Errors, responses and the response interceptor (part_000 lines 89-120) -/

/-- The `result` object inside a backend response body
(`data.result.result_code`). -/
structure ResultField where
  result_code : Option Int
deriving DecidableEq

/-- A backend response body: the optional `result` object. -/
structure RespBody where
  result : Option ResultField
deriving DecidableEq

/-- An HTTP response as seen by axios: status and optional parsed body. -/
structure HttpResponse where
  status : Nat
  data : Option RespBody
deriving DecidableEq

/-- An axios error object: `error.code`, `error.message`, the optional
`error.response`, and the truthiness of `error.config` (the original
request). -/
structure AxiosError where
  code : Option String
  message : Option String
  response : Option HttpResponse
  hasConfig : Bool
deriving DecidableEq

/-- The optional-chaining accessor `error.response?.status`. -/
def AxiosError.status (e : AxiosError) : Option Nat := e.response.map (fun r => r.status)

/-- The optional-chaining accessor `error.response?.data?.result`. -/
def AxiosError.responseResult (e : AxiosError) : Option ResultField :=
  (e.response.bind (fun r => r.data)).bind (fun d => d.result)

/-- The optional-chaining accessor `error.response?.data?.result?.result_code`. -/
def AxiosError.resultCode (e : AxiosError) : Option Int :=
  e.responseResult.bind (fun f => f.result_code)

/-- The client-side effects the interceptors can perform: browser storage and
the last full-page navigation issued through `window.location.href`. -/
structure ClientState where
  storage : Storage
  navigatedTo : Option String
deriving DecidableEq

/-- The error branch of the response interceptor registered on
`axiosInstance` only: on a 401 response with a truthy `error.config`, remove
`accessToken` and `refreshToken` from storage and navigate to
`/auth/login`; in every case the error itself is re-rejected unchanged. -/
def responseErrorInterceptor (e : AxiosError) (st : ClientState) : ClientState :=
  if e.status == some 401 && e.hasConfig then
    { storage := localStorage.removeItem
        (localStorage.removeItem st.storage "accessToken") "refreshToken",
      navigatedTo := some "/auth/login" }
  else st

/-- The outcome of one network attempt, supplied as an oracle: either the
server responded, or axios produced an error object. -/
inductive Outcome where
  | ok (r : HttpResponse)
  | err (e : AxiosError)
deriving DecidableEq

/-- What a dispatch through an axios instance delivers to its caller. -/
inductive CallOutcome where
  | resp (r : HttpResponse)
  | reject (e : AxiosError)
deriving DecidableEq

/-- Dispatch through the primary `axiosInstance`: its response interceptor
runs on errors (401 handling) and the error is always re-rejected. -/
def runPrimary (o : Outcome) (st : ClientState) : ClientState × CallOutcome :=
  match o with
  | .ok r => (st, .resp r)
  | .err e => (responseErrorInterceptor e st, .reject e)

/-- Dispatch through `fallbackAxiosInstance`: no response interceptor is
registered on it, so errors pass through with no effect on client state. -/
def runFallback (o : Outcome) (st : ClientState) : ClientState × CallOutcome :=
  match o with
  | .ok r => (st, .resp r)
  | .err e => (st, .reject e)

/-! ### testBackendConnection (part_000 lines 123-159) -/

/-- The connectivity probe: a `GET /health` whose outcome is classified as
connected (`true`) on any resolved response, or on an error whose response
carries result code 2003, or status 400 with a `result` field, or status
401/403; everything else (including transport failures) yields `false`. -/
def testBackendConnection (o : Outcome) : Bool :=
  match o with
  | .ok _ => true
  | .err e =>
    if e.resultCode == some 2003 then true
    else if e.status == some 400 && e.responseResult.isSome then true
    else if e.status == some 401 || e.status == some 403 then true
    else false

/-! ### axiosWithFallback (part_000 lines 162-208) -/

/-- The result of one `axiosWithFallback.get` call: final client state, the
value delivered to the caller, and the argument list of every invocation of
the fallback instance. -/
structure GetResult where
  state : ClientState
  result : CallOutcome
  fallbackArgs : List (String × Option String)
deriving DecidableEq

/-- Source operation `axiosWithFallback.get(url, config)`: try the primary instance; on an error
that is `ERR_NETWORK`, or whose message contains `CORS` or `blocked`, while
`isProduction`, retry once on the fallback instance with the same arguments
(delivering the fallback's own outcome); otherwise re-throw the primary
error. The two network attempts' outcomes are the oracles `p` and `f`. -/
def axiosWithFallback.get (env : Env) (url : String) (cfg : Option String)
    (p f : Outcome) (st : ClientState) : GetResult :=
  match runPrimary p st with
  | (st1, .resp r) => ⟨st1, .resp r, []⟩
  | (st1, .reject e) =>
    if (e.code == some "ERR_NETWORK" || optIncludes e.message "CORS"
          || optIncludes e.message "blocked") && isProduction env then
      let (st2, o2) := runFallback f st1
      ⟨st2, o2, [(url, cfg)]⟩
    else ⟨st1, .reject e, []⟩

/-- The result of one `axiosWithFallback.post` call; fallback invocations are
recorded with their `(url, data, config)` arguments. -/
structure PostResult where
  state : ClientState
  result : CallOutcome
  fallbackArgs : List (String × Option String × Option String)
deriving DecidableEq

/-- Source operation `axiosWithFallback.post(url, data, config)`: identical control flow to
`get`, with the request body forwarded unchanged to the fallback attempt. -/
def axiosWithFallback.post (env : Env) (url : String) (data cfg : Option String)
    (p f : Outcome) (st : ClientState) : PostResult :=
  match runPrimary p st with
  | (st1, .resp r) => ⟨st1, .resp r, []⟩
  | (st1, .reject e) =>
    if (e.code == some "ERR_NETWORK" || optIncludes e.message "CORS"
          || optIncludes e.message "blocked") && isProduction env then
      let (st2, o2) := runFallback f st1
      ⟨st2, o2, [(url, data, cfg)]⟩
    else ⟨st1, .reject e, []⟩

/-! ### Proxy server (src/server.js) -/

/-- A JSON value, as produced by the body parser (`express.json()`). -/
inductive Json where
  | null
  | bool (b : Bool)
  | num (n : Int)
  | str (s : String)
  | arr (xs : List Json)
  | obj (fields : List (String × Json))

/-- Escaping of one character inside a JSON string literal (quotes and
backslashes; other characters pass through). -/
def escapeChar (c : Char) : String :=
  if c = '\\' then "\\\\"
  else if c = '"' then "\\\""
  else String.singleton c

/-- Escaping of a JSON string literal's contents. -/
def escapeString (s : String) : String :=
  String.join (s.data.map escapeChar)

mutual

/-- Serialization of a parsed body, as by `JSON.stringify`. -/
def Json.serialize : Json → String
  | Json.null => "null"
  | Json.bool true => "true"
  | Json.bool false => "false"
  | Json.num n => toString n
  | Json.str s => "\"" ++ escapeString s ++ "\""
  | Json.arr xs => "[" ++ Json.serializeArr xs ++ "]"
  | Json.obj fields => "\x7b" ++ Json.serializeObj fields ++ "\x7d"

/-- Comma-separated serialization of array elements. -/
def Json.serializeArr : List Json → String
  | [] => ""
  | [x] => Json.serialize x
  | x :: y :: xs => Json.serialize x ++ "," ++ Json.serializeArr (y :: xs)

/-- Comma-separated serialization of object fields. -/
def Json.serializeObj : List (String × Json) → String
  | [] => ""
  | [(k, v)] => "\"" ++ escapeString k ++ "\":" ++ Json.serialize v
  | (k, v) :: g :: fs =>
    "\"" ++ escapeString k ++ "\":" ++ Json.serialize v ++ ","
      ++ Json.serializeObj (g :: fs)

end

/-- The headers and body the proxy sets on the outgoing upstream request
(`proxyReq`): what the `onProxyReq` hooks may modify. -/
structure ProxyReqState where
  contentType : Option String
  contentLength : Option Nat
  writtenBody : Option String
deriving DecidableEq

/-- The outgoing upstream request before any hook runs: nothing set. -/
def initProxyReq : ProxyReqState := ⟨none, none, none⟩

/-- The `/api` route's `onProxyReq` hook: when `req.body` is present and the
method is `POST`, set only the `Content-Type` header; the body is neither
re-serialized nor written, and no `Content-Length` is set. -/
def onProxyReqApi (method : String) (body : Option Json)
    (p : ProxyReqState) : ProxyReqState :=
  if body.isSome && method == "POST" then
    { p with contentType := some "application/json" }
  else p

/-- The `/open-api` route's `onProxyReq` hook: when `req.body` is present and
the method is `POST`, re-serialize the parsed body with `JSON.stringify`, set
`Content-Type`, set `Content-Length` to `Buffer.byteLength(bodyData)` (its
UTF-8 byte length), and write the serialized body to the upstream request. -/
def onProxyReqOpenApi (method : String) (body : Option Json)
    (p : ProxyReqState) : ProxyReqState :=
  if body.isSome && method == "POST" then
    match body with
    | some b =>
      let bodyData := Json.serialize b
      { contentType := some "application/json",
        contentLength := some bodyData.utf8ByteSize,
        writtenBody := some bodyData }
    | none => p
  else p

/-- The JSON payload of a proxy-failure response. -/
structure ErrorPayload where
  error : String
  messageField : Option String
deriving DecidableEq

/-- The `/api` route's `onError` handler:
`res.status(500).json({ error: 'Proxy error' })`. -/
def onErrorApi (_errMessage : String) : Nat × ErrorPayload :=
  (500, ⟨"Proxy error", none⟩)

/-- The `/open-api` route's `onError` handler:
`res.status(500).json({ error: 'Proxy error', message: err.message })`. -/
def onErrorOpenApi (errMessage : String) : Nat × ErrorPayload :=
  (500, ⟨"Proxy error", some errMessage⟩)

/-- The outcome of the single forwarding attempt to the fixed upstream
origin: an upstream response, or a forwarding failure with an error
message. -/
inductive ForwardOutcome where
  | upstream (status : Nat) (body : String)
  | failed (errMessage : String)
deriving DecidableEq

/-- What the server sends back on a proxied route. -/
inductive ServerAnswer where
  | verbatim (status : Nat) (body : String)
  | errorJson (status : Nat) (payload : ErrorPayload)
deriving DecidableEq

/-- The result of handling one request on a proxied route: how many
forwarding attempts were made, and the answer sent to the client. -/
structure ProxyResult where
  attempts : Nat
  answer : ServerAnswer
deriving DecidableEq

/-- Modelled from the spec: the off-the-shelf reverse-proxy middleware
(`createProxyMiddleware`, a library, not part of this repository) performs
exactly one forwarding attempt to the fixed upstream origin; on an upstream
response it relays status and body verbatim, and on a forwarding failure it
catches the error and invokes the route's `onError` handler, whose status and
payload become the response. Instantiated here with the `/api` route's
handler. -/
def proxyApi (o : ForwardOutcome) : ProxyResult :=
  match o with
  | .upstream s b => ⟨1, .verbatim s b⟩
  | .failed m => ⟨1, .errorJson (onErrorApi m).1 (onErrorApi m).2⟩

/-- Modelled from the spec: the same single-attempt relay-or-catch middleware
behaviour, instantiated with the `/open-api` route's `onError` handler. -/
def proxyOpenApi (o : ForwardOutcome) : ProxyResult :=
  match o with
  | .upstream s b => ⟨1, .verbatim s b⟩
  | .failed m => ⟨1, .errorJson (onErrorOpenApi m).1 (onErrorOpenApi m).2⟩

/-! ### Specification-side predicates -/

/-- The spec's notion of an error message mentioning an indicator: the
message is present and the indicator occurs contiguously in it. -/
def mentions (m : Option String) (needle : String) : Prop :=
  ∃ s pre post, m = some s ∧ s.data = pre ++ needle.data ++ post

/-- The spec's retry condition: the deployment is flagged as production and
the error indicates a network-layer failure (code `ERR_NETWORK`, or a
message mentioning the CORS/blocked indicators). -/
def retryCondition (env : Env) (e : AxiosError) : Prop :=
  isProduction env = true ∧
    (e.code = some "ERR_NETWORK" ∨ mentions e.message "CORS"
      ∨ mentions e.message "blocked")

/-- Decidable 401-detection on an attempt outcome: an error whose response
has status 401 and whose original request config is truthy (the guard of the
response interceptor's 401 branch). -/
def is401 (o : Outcome) : Bool :=
  match o with
  | .ok _ => false
  | .err e => e.status == some 401 && e.hasConfig

/-- The spec's credential-selection rule: the first non-empty of the two
named credential values, `accessToken` taking precedence over
`storeUserAccessToken`; when neither is non-empty, no credential. -/
def chosenToken (s : Storage) : Option String :=
  if truthy (localStorage.getItem s "accessToken")
  then localStorage.getItem s "accessToken"
  else if truthy (localStorage.getItem s "storeUserAccessToken")
  then localStorage.getItem s "storeUserAccessToken"
  else none

/-! ### Sample inputs used by witnesses -/

/-- A production environment (NODE_ENV set to production, no browser). -/
def envProd : Env := ⟨some "production", none⟩

/-- A development environment served from a herokuapp.com hostname. -/
def envHeroku : Env := ⟨some "development", some "mukkai-frontend.herokuapp.com"⟩

/-- A transport-level failure: code ERR_NETWORK, no response received. -/
def errNetwork : AxiosError := ⟨some "ERR_NETWORK", some "Network Error", none, true⟩

/-- A 401 response error with a truthy original request config. -/
def err401 : AxiosError :=
  ⟨none, some "Request failed with status code 401", some ⟨401, none⟩, true⟩

/-- A 500 response error carrying a well-formed backend body. -/
def err500 : AxiosError :=
  ⟨none, some "Request failed with status code 500",
    some ⟨500, some ⟨some ⟨some 1⟩⟩⟩, true⟩

/-- A plain 200 response. -/
def okResp : HttpResponse := ⟨200, some ⟨none⟩⟩

/-- A storage holding all three token keys. -/
def storageFull : Storage :=
  [("accessToken", "tokA"), ("refreshToken", "tokR"), ("storeUserAccessToken", "tokS")]

/-- A client state over `storageFull` with no navigation issued yet. -/
def stFull : ClientState := ⟨storageFull, none⟩

/-- A sample parsed JSON request body. -/
def sampleBody : Json := Json.obj [("menuId", Json.num 1)]

/-! ### Helper lemmas -/

theorem startsWithChars_iff (hay needle : List Char) :
    startsWithChars hay needle = true ↔ ∃ rest, hay = needle ++ rest := by
  induction needle generalizing hay with
  | nil => simp [startsWithChars]
  | cons n ns ih =>
    cases hay with
    | nil => simp [startsWithChars]
    | cons a as =>
      simp only [startsWithChars, Bool.and_eq_true, beq_iff_eq, ih,
        List.cons_append, List.cons.injEq]
      constructor
      · rintro ⟨rfl, rest, rfl⟩
        exact ⟨rest, rfl, rfl⟩
      · rintro ⟨rest, rfl, rfl⟩
        exact ⟨rfl, rest, rfl⟩

theorem containsChars_iff (hay needle : List Char) :
    containsChars hay needle = true ↔ ∃ pre post, hay = pre ++ needle ++ post := by
  induction hay with
  | nil =>
    simp only [containsChars, List.isEmpty_iff]
    constructor
    · rintro rfl
      exact ⟨[], [], rfl⟩
    · rintro ⟨pre, post, hpp⟩
      cases pre <;> cases needle <;> simp_all
  | cons a as ih =>
    simp only [containsChars, Bool.or_eq_true, startsWithChars_iff, ih]
    constructor
    · rintro (⟨rest, heq⟩ | ⟨pre, post, heq⟩)
      · exact ⟨[], rest, by simpa using heq⟩
      · exact ⟨a :: pre, post, by simp [heq]⟩
    · rintro ⟨pre, post, heq⟩
      cases pre with
      | nil =>
        exact Or.inl ⟨post, by simpa using heq⟩
      | cons b bs =>
        rw [List.cons_append] at heq
        injection heq with h1 h2
        exact Or.inr ⟨bs, post, h2⟩

theorem optIncludes_iff (m : Option String) (needle : String) :
    optIncludes m needle = true ↔ mentions m needle := by
  cases m with
  | none => simp [optIncludes, mentions]
  | some s =>
    simp [optIncludes, mentions, strIncludes, containsChars_iff]

/-- The boolean guard of the fallback branch in the source agrees with the
spec-side retry condition. -/
theorem retryBool_iff (env : Env) (e : AxiosError) :
    ((e.code == some "ERR_NETWORK" || optIncludes e.message "CORS"
        || optIncludes e.message "blocked") && isProduction env) = true
      ↔ retryCondition env e := by
  simp only [retryCondition, Bool.and_eq_true, Bool.or_eq_true, beq_iff_eq,
    optIncludes_iff]
  tauto

theorem lookupKV_removeKV_self (k : String) (l : List (String × String)) :
    lookupKV k (removeKV k l) = none := by
  induction l with
  | nil => rfl
  | cons p ps ih =>
    obtain ⟨k2, v⟩ := p
    by_cases h : k2 = k
    · simp [removeKV, h, ih]
    · have h2 : k ≠ k2 := fun heq => h heq.symm
      simp [removeKV, lookupKV, h, h2, ih]

theorem lookupKV_removeKV_other (k k2 : String) (l : List (String × String))
    (h : k2 ≠ k) :
    lookupKV k2 (removeKV k l) = lookupKV k2 l := by
  induction l with
  | nil => rfl
  | cons p ps ih =>
    obtain ⟨k3, v⟩ := p
    by_cases hk3 : k3 = k
    · have : k2 ≠ k3 := fun heq => h (heq.trans hk3)
      simp [removeKV, lookupKV, hk3, this, h, ih]
    · by_cases hk2 : k2 = k3 <;> simp [removeKV, lookupKV, hk3, hk2, ih]

theorem getItem_removeItem_self (s : Storage) (k : String) :
    localStorage.getItem (localStorage.removeItem s k) k = none :=
  lookupKV_removeKV_self k s

theorem getItem_removeItem_other (s : Storage) (k k2 : String) (h : k2 ≠ k) :
    localStorage.getItem (localStorage.removeItem s k) k2
      = localStorage.getItem s k2 :=
  lookupKV_removeKV_other k k2 s h

theorem lookupKV_append (k : String) (l1 l2 : List (String × String)) :
    lookupKV k (l1 ++ l2)
      = (lookupKV k l1).orElse (fun _ => lookupKV k l2) := by
  induction l1 with
  | nil => simp [lookupKV, Option.orElse]
  | cons p ps ih =>
    obtain ⟨k2, v⟩ := p
    by_cases h : k = k2 <;> simp [lookupKV, h, ih, Option.orElse]

theorem getHeader_setHeader_self (h : ReqHeaders) (k v : String) :
    getHeader (setHeader h k v) k = some v := by
  simp [getHeader, setHeader, lookupKV_append, lookupKV_removeKV_self, lookupKV,
    Option.orElse]

theorem getHeader_setHeader_other (h : ReqHeaders) (k v k2 : String)
    (hne : k2 ≠ k) :
    getHeader (setHeader h k v) k2 = getHeader h k2 := by
  simp [getHeader, setHeader, lookupKV_append, lookupKV_removeKV_other _ _ _ hne,
    lookupKV, hne, Option.orElse]
  cases lookupKV k2 h.entries <;> rfl

/-- A `get` call whose primary outcome is not a (config-carrying) 401 error
leaves browser storage untouched. -/
theorem get_storage_eq (env : Env) (url : String) (cfg : Option String)
    (p f : Outcome) (st : ClientState) (h : is401 p = false) :
    (axiosWithFallback.get env url cfg p f st).state.storage = st.storage := by
  cases p with
  | ok r => simp [axiosWithFallback.get, runPrimary]
  | err e =>
    have hint : responseErrorInterceptor e st = st := by
      simp only [is401] at h
      simp [responseErrorInterceptor, h]
    cases f <;>
      simp [axiosWithFallback.get, runPrimary, runFallback, hint] <;>
      split <;> simp [hint]

/-! ### Claim theorems -/

/-- C1: for every `axiosWithFallback.get` or `.post` call whose primary
attempt fails, the fallback client is invoked — exactly once, with identical
arguments — if and only if the deployment is flagged as production and the
error indicates a network-layer failure (code `ERR_NETWORK`, or a message
containing a CORS/blocked indicator); when the condition does not hold (in
particular whenever not in production), the original error is propagated and
the fallback is never invoked. -/
theorem c1_fallback_retry_iff (env : Env) (url : String) (cfg data : Option String)
    (p f : Outcome) (st : ClientState) (e : AxiosError) (hp : p = Outcome.err e) :
    (((axiosWithFallback.get env url cfg p f st).fallbackArgs = [(url, cfg)]
        ∧ (axiosWithFallback.post env url data cfg p f st).fallbackArgs
            = [(url, data, cfg)])
      ↔ retryCondition env e)
    ∧ (¬ retryCondition env e →
        (axiosWithFallback.get env url cfg p f st).fallbackArgs = []
        ∧ (axiosWithFallback.get env url cfg p f st).result = CallOutcome.reject e
        ∧ (axiosWithFallback.post env url data cfg p f st).fallbackArgs = []
        ∧ (axiosWithFallback.post env url data cfg p f st).result
            = CallOutcome.reject e)
    ∧ (isProduction env = false → ¬ retryCondition env e) := by
  subst hp
  have hthird : isProduction env = false → ¬ retryCondition env e := by
    intro hfp hrc
    rw [hrc.1] at hfp
    exact absurd hfp (by decide)
  by_cases hc : retryCondition env e
  · have hb := (retryBool_iff env e).mpr hc
    cases f <;>
      simp only [axiosWithFallback.get, axiosWithFallback.post, runPrimary,
        runFallback, hb] <;>
      simp [hc, hthird] <;>
      exact hc.1
  · have hb : ((e.code == some "ERR_NETWORK" || optIncludes e.message "CORS"
        || optIncludes e.message "blocked") && isProduction env) = false := by
      rw [← Bool.not_eq_true]
      exact fun hbt => hc ((retryBool_iff env e).mp hbt)
    simp [axiosWithFallback.get, axiosWithFallback.post, runPrimary,
      runFallback, hb, hc, hthird]

/-- Witness for C1, at a production environment and an `ERR_NETWORK` primary
failure followed by a successful fallback. -/
theorem c1_fallback_retry_iff_witness :
    (((axiosWithFallback.get envProd "/health" none (Outcome.err errNetwork)
          (Outcome.ok okResp) stFull).fallbackArgs = [("/health", none)]
        ∧ (axiosWithFallback.post envProd "/health" none none
            (Outcome.err errNetwork) (Outcome.ok okResp) stFull).fallbackArgs
            = [("/health", none, none)])
      ↔ retryCondition envProd errNetwork)
    ∧ (¬ retryCondition envProd errNetwork →
        (axiosWithFallback.get envProd "/health" none (Outcome.err errNetwork)
            (Outcome.ok okResp) stFull).fallbackArgs = []
        ∧ (axiosWithFallback.get envProd "/health" none (Outcome.err errNetwork)
            (Outcome.ok okResp) stFull).result = CallOutcome.reject errNetwork
        ∧ (axiosWithFallback.post envProd "/health" none none
            (Outcome.err errNetwork) (Outcome.ok okResp) stFull).fallbackArgs = []
        ∧ (axiosWithFallback.post envProd "/health" none none
            (Outcome.err errNetwork) (Outcome.ok okResp) stFull).result
            = CallOutcome.reject errNetwork)
    ∧ (isProduction envProd = false → ¬ retryCondition envProd errNetwork) :=
  c1_fallback_retry_iff envProd "/health" none none (Outcome.err errNetwork)
    (Outcome.ok okResp) stFull errNetwork rfl

/-- C5: when the retry condition holds and the fallback attempt also fails,
the error delivered to the caller is the fallback's error, not the primary's;
this holds for both `get` and `post`. -/
theorem c5_fallback_error_propagates (env : Env) (url : String)
    (cfg data : Option String) (p f : Outcome) (st : ClientState)
    (e fe : AxiosError) (hp : p = Outcome.err e) (hc : retryCondition env e)
    (hf : f = Outcome.err fe) :
    (axiosWithFallback.get env url cfg p f st).result = CallOutcome.reject fe
    ∧ (axiosWithFallback.post env url data cfg p f st).result
        = CallOutcome.reject fe := by
  subst hp; subst hf
  have hb := (retryBool_iff env e).mpr hc
  simp [axiosWithFallback.get, axiosWithFallback.post, runPrimary, runFallback, hb]

/-- Witness for C5: production, primary fails with `ERR_NETWORK`, fallback
fails with a 500 response error; the caller sees the 500 error. -/
theorem c5_fallback_error_propagates_witness :
    (axiosWithFallback.get envProd "/health" none (Outcome.err errNetwork)
        (Outcome.err err500) stFull).result = CallOutcome.reject err500
    ∧ (axiosWithFallback.post envProd "/health" none none
        (Outcome.err errNetwork) (Outcome.err err500) stFull).result
        = CallOutcome.reject err500 :=
  c5_fallback_error_propagates envProd "/health" none none
    (Outcome.err errNetwork) (Outcome.err err500) stFull errNetwork err500 rfl
    ⟨by decide, Or.inl rfl⟩ rfl

/-- C6: the 401-handling response interceptor is registered only on the
primary instance. A request executed via the fallback client that fails with
a 401 leaves storage and navigation unchanged and propagates the error
as-is; in particular a full `get` whose primary attempt fails with a
retry-eligible non-401 error and whose fallback attempt fails with a 401
ends in the initial client state. -/
theorem c6_fallback_401_no_side_effects (env : Env) (url : String)
    (cfg : Option String) (p f : Outcome) (st : ClientState)
    (ep fe : AxiosError) (hp : p = Outcome.err ep) (hc : retryCondition env ep)
    (hnp : is401 p = false) (hf : f = Outcome.err fe)
    (h401 : fe.status = some 401) :
    runFallback (Outcome.err fe) st = (st, CallOutcome.reject fe)
    ∧ (axiosWithFallback.get env url cfg p f st).state = st
    ∧ (axiosWithFallback.get env url cfg p f st).result = CallOutcome.reject fe := by
  subst hp; subst hf
  refine ⟨rfl, ?_, ?_⟩ <;>
  · have hb := (retryBool_iff env ep).mpr hc
    have hint : responseErrorInterceptor ep st = st := by
      simp only [is401] at hnp
      simp [responseErrorInterceptor, hnp]
    simp [axiosWithFallback.get, runPrimary, runFallback, hb, hint]

/-- Witness for C6: production, primary fails with `ERR_NETWORK`, fallback
fails with a 401; tokens survive and no navigation happens. -/
theorem c6_fallback_401_no_side_effects_witness :
    runFallback (Outcome.err err401) stFull = (stFull, CallOutcome.reject err401)
    ∧ (axiosWithFallback.get envProd "/health" none (Outcome.err errNetwork)
        (Outcome.err err401) stFull).state = stFull
    ∧ (axiosWithFallback.get envProd "/health" none (Outcome.err errNetwork)
        (Outcome.err err401) stFull).result = CallOutcome.reject err401 :=
  c6_fallback_401_no_side_effects envProd "/health" none
    (Outcome.err errNetwork) (Outcome.err err401) stFull errNetwork err401 rfl
    ⟨by decide, Or.inl rfl⟩ (by decide) rfl (by decide)

/-- The request interceptor attaches exactly the spec's chosen credential
(first non-empty, `accessToken` first), verbatim, or nothing. -/
theorem requestInterceptor_chosen (s : Storage) (h : ReqHeaders) :
    requestInterceptor s h
      = (match chosenToken s with
         | some t => setHeader h "authorization-token" t
         | none => h) := by
  unfold requestInterceptor chosenToken
  rcases ha : localStorage.getItem s "accessToken" with _ | ta
  · rcases hb : localStorage.getItem s "storeUserAccessToken" with _ | tb
    · simp [truthy]
    · cases htb : tb.isEmpty <;> simp [truthy, htb]
  · cases hta : ta.isEmpty
    · simp [truthy, hta]
    · rcases hb : localStorage.getItem s "storeUserAccessToken" with _ | tb
      · simp [truthy, hta]
      · cases htb : tb.isEmpty <;> simp [truthy, hta, htb]

/-- C3: on every client response error with HTTP status 401 (such an error
carries its originating request config), both named credential entries
(`accessToken` and `refreshToken`) are removed from storage, every other
entry is untouched, a full-page navigation to the login route is issued, and
the original error is still the one rejected to the caller. -/
theorem c3_401_clears_tokens_and_redirects (e : AxiosError) (st : ClientState)
    (h1 : e.status = some 401) (h2 : e.hasConfig = true) :
    localStorage.getItem (responseErrorInterceptor e st).storage "accessToken" = none
    ∧ localStorage.getItem (responseErrorInterceptor e st).storage "refreshToken" = none
    ∧ (∀ k, k ≠ "accessToken" → k ≠ "refreshToken" →
        localStorage.getItem (responseErrorInterceptor e st).storage k
          = localStorage.getItem st.storage k)
    ∧ (responseErrorInterceptor e st).navigatedTo = some "/auth/login"
    ∧ runPrimary (Outcome.err e) st
        = (responseErrorInterceptor e st, CallOutcome.reject e) := by
  have hcond : (e.status == some 401 && e.hasConfig) = true := by
    simp [h1, h2]
  have hst : responseErrorInterceptor e st
      = { storage := localStorage.removeItem
            (localStorage.removeItem st.storage "accessToken") "refreshToken",
          navigatedTo := some "/auth/login" } := by
    simp [responseErrorInterceptor, hcond]
  rw [hst]
  refine ⟨?_, ?_, ?_, rfl, by simp [runPrimary, hst]⟩
  · rw [getItem_removeItem_other _ _ _ (by decide)]
    exact getItem_removeItem_self _ _
  · exact getItem_removeItem_self _ _
  · intro k hk1 hk2
    rw [getItem_removeItem_other _ _ _ hk2, getItem_removeItem_other _ _ _ hk1]

/-- Witness for C3, at a concrete 401 error over a storage holding all three
token keys: both credentials are gone, the store-user token survives, the
login navigation is issued, and the error is rejected. -/
theorem c3_401_clears_tokens_and_redirects_witness :
    localStorage.getItem (responseErrorInterceptor err401 stFull).storage
        "accessToken" = none
    ∧ localStorage.getItem (responseErrorInterceptor err401 stFull).storage
        "refreshToken" = none
    ∧ localStorage.getItem (responseErrorInterceptor err401 stFull).storage
        "storeUserAccessToken"
        = localStorage.getItem stFull.storage "storeUserAccessToken"
    ∧ (responseErrorInterceptor err401 stFull).navigatedTo = some "/auth/login"
    ∧ runPrimary (Outcome.err err401) stFull
        = (responseErrorInterceptor err401 stFull, CallOutcome.reject err401) := by
  obtain ⟨a, b, c, d, e⟩ :=
    c3_401_clears_tokens_and_redirects err401 stFull (by decide) (by decide)
  exact ⟨a, b, c "storeUserAccessToken" (by decide) (by decide), d, e⟩

/-- C7: on every outgoing request whose config does not already carry the
custom auth header, the interceptor attaches at most one of the two named
credential values, chosen by non-empty-presence precedence with `accessToken`
first, verbatim (no bearer scheme) under the `authorization-token` header;
when neither is present no auth header is attached, and no other header is
touched. -/
theorem c7_auth_header_precedence (s : Storage) (h : ReqHeaders)
    (hfresh : getHeader h "authorization-token" = none) :
    getHeader (requestInterceptor s h) "authorization-token" = chosenToken s
    ∧ ∀ k, k ≠ "authorization-token" →
        getHeader (requestInterceptor s h) k = getHeader h k := by
  rw [requestInterceptor_chosen]
  rcases hc : chosenToken s with _ | t
  · exact ⟨hfresh, fun k _hk => rfl⟩
  · exact ⟨getHeader_setHeader_self h _ t,
      fun k hk => getHeader_setHeader_other h _ t k hk⟩

/-- Witness for C7: with both credentials stored, the `accessToken` value is
attached verbatim and an unrelated header key is untouched. -/
theorem c7_auth_header_precedence_witness :
    getHeader (requestInterceptor storageFull ⟨[]⟩) "authorization-token"
        = chosenToken storageFull
    ∧ getHeader (requestInterceptor storageFull ⟨[]⟩) "Content-Type"
        = getHeader ⟨[]⟩ "Content-Type" := by
  obtain ⟨a, b⟩ := c7_auth_header_precedence storageFull ⟨[]⟩ rfl
  exact ⟨a, b "Content-Type" (by decide)⟩

/-- C8: issuing the same `get` request twice, with no intervening 401
response on the primary instance, leaves credential storage unchanged — the
request path only reads the credential entries. -/
theorem c8_get_twice_storage_unchanged (env : Env) (url : String)
    (cfg : Option String) (p1 f1 p2 f2 : Outcome) (st : ClientState)
    (h1 : is401 p1 = false) (h2 : is401 p2 = false) :
    (axiosWithFallback.get env url cfg p2 f2
        (axiosWithFallback.get env url cfg p1 f1 st).state).state.storage
      = st.storage := by
  rw [get_storage_eq env url cfg p2 f2 _ h2,
    get_storage_eq env url cfg p1 f1 st h1]

/-- Witness for C8: a successful `get` followed by one failing with
`ERR_NETWORK` leaves the stored tokens exactly as they were. -/
theorem c8_get_twice_storage_unchanged_witness :
    (axiosWithFallback.get envProd "/health" none (Outcome.err errNetwork)
        (Outcome.ok okResp)
        (axiosWithFallback.get envProd "/health" none (Outcome.ok okResp)
          (Outcome.ok okResp) stFull).state).state.storage
      = stFull.storage :=
  c8_get_twice_storage_unchanged envProd "/health" none (Outcome.ok okResp)
    (Outcome.ok okResp) (Outcome.err errNetwork) (Outcome.ok okResp) stFull
    (by decide) (by decide)

/-- C2 counterexample: a probe error carrying a full server response (HTTP
500 with a well-formed body) is classified as not connected, contradicting
the claim that any received response yields `true`. -/
theorem c2_probe_counterexample :
    err500.response.isSome = true
    ∧ testBackendConnection (Outcome.err err500) = false := by decide

/-- C2 amended: `testBackendConnection` returns `true` exactly on a resolved
response, or on an error response carrying result code 2003, or status 400
with a `result` field, or status 401 or 403; it returns `false` on every
other error — transport failures, but also received responses outside that
list (such as 404 or 500). -/
theorem c2_probe_classification (o : Outcome) :
    testBackendConnection o = true ↔
      ((∃ r, o = Outcome.ok r)
        ∨ ∃ e, o = Outcome.err e
            ∧ (e.resultCode = some 2003
               ∨ (e.status = some 400 ∧ e.responseResult.isSome = true)
               ∨ e.status = some 401 ∨ e.status = some 403)) := by
  cases o with
  | ok r => simp [testBackendConnection]
  | err e =>
    have hb : testBackendConnection (Outcome.err e)
        = (e.resultCode == some 2003
            || (e.status == some 400 && e.responseResult.isSome)
            || (e.status == some 401 || e.status == some 403)) := by
      simp only [testBackendConnection]
      by_cases h1 : (e.resultCode == some 2003) = true <;>
        by_cases h2 : (e.status == some 400 && e.responseResult.isSome) = true <;>
          by_cases h3 : (e.status == some 401 || e.status == some 403) = true <;>
            simp [h1, h2, h3]
    rw [hb]
    simp only [Bool.or_eq_true, Bool.and_eq_true, beq_iff_eq]
    constructor
    · rintro h
      exact Or.inr ⟨e, rfl, by tauto⟩
    · rintro (⟨r, hr⟩ | ⟨e2, he2, hd⟩)
      · cases hr
      · injection he2 with he2
        subst he2
        tauto

/-- C9 counterexample: with `NODE_ENV` not equal to `production` but a
browser hostname containing `herokuapp.com`, the code flags production mode
and selects the empty (same-origin) base URL — so production mode is not
determined by `NODE_ENV` alone. -/
theorem c9_env_counterexample :
    envHeroku.nodeEnv ≠ some "production"
    ∧ isProduction envHeroku = true
    ∧ API_BASE_URL envHeroku = "" := by decide

/-- C9 amended: production mode holds exactly when `NODE_ENV` equals
`production` or the browser hostname contains `herokuapp.com`; in production
the primary base URL is the empty string (same-origin, proxied), and
otherwise it is the absolute fallback origin. -/
theorem c9_production_and_base_url (e : Env) :
    (isProduction e = true ↔
      (e.nodeEnv = some "production"
        ∨ ∃ h pre post, e.windowHostname = some h
            ∧ h.data = pre ++ "herokuapp.com".data ++ post))
    ∧ API_BASE_URL e = (if isProduction e then "" else FALLBACK_API_BASE_URL) := by
  refine ⟨?_, rfl⟩
  simp only [isProduction, Bool.or_eq_true, beq_iff_eq]
  cases hw : e.windowHostname with
  | none => simp
  | some h =>
    simp only [strIncludes, containsChars_iff, Option.some.injEq]
    constructor
    · rintro (hn | ⟨pre, post, hpp⟩)
      · exact Or.inl hn
      · exact Or.inr ⟨h, pre, post, rfl, hpp⟩
    · rintro (hn | ⟨h2, pre, post, hh2, hpp⟩)
      · exact Or.inl hn
      · subst hh2
        exact Or.inr ⟨pre, post, hpp⟩

/-- C4 counterexample: for a `POST` under the `/api` prefix with a concrete
JSON body, the route's hook sets no `Content-Length` at all and writes no
re-serialized body, contradicting the claim that the proxy re-serializes the
body and sets `Content-Length` to its exact byte length on `/api`. -/
theorem c4_api_counterexample :
    ¬ ((onProxyReqApi "POST" (some sampleBody) initProxyReq).contentLength
          = some (Json.serialize sampleBody).utf8ByteSize
        ∧ (onProxyReqApi "POST" (some sampleBody) initProxyReq).writtenBody
          = some (Json.serialize sampleBody)) := by
  intro hcl
  have hnone : (onProxyReqApi "POST" (some sampleBody) initProxyReq).contentLength
      = none := rfl
  rw [hnone] at hcl
  exact Option.noConfusion hcl.1

/-- C4 amended: the re-serialize-and-frame behaviour belongs to the
`/open-api` route: its hook re-serializes the parsed JSON body, sets
`Content-Length` to the exact byte length of the re-serialized JSON and
writes that body, while the `/api` hook only sets `Content-Type`; the
middleware (modelled from the spec) forwards once to the fixed upstream and
relays the upstream status and body verbatim. -/
theorem c4_open_api_framing (b : Json) (p : ProxyReqState) (s : Nat)
    (bdy : String) :
    onProxyReqOpenApi "POST" (some b) p
      = ⟨some "application/json", some (Json.serialize b).utf8ByteSize,
          some (Json.serialize b)⟩
    ∧ onProxyReqApi "POST" (some b) p
      = { p with contentType := some "application/json" }
    ∧ proxyOpenApi (ForwardOutcome.upstream s bdy)
      = ⟨1, ServerAnswer.verbatim s bdy⟩ :=
  ⟨rfl, rfl, rfl⟩

/-- C10: every forwarding failure on the `/api` or `/open-api` route is
converted into an HTTP 500 response with the structured `Proxy error`
payload (the `/open-api` variant also carrying the failure message), after
exactly one forwarding attempt — the server never retries. -/
theorem c10_proxy_error_500 (m : String) :
    proxyApi (ForwardOutcome.failed m)
      = ⟨1, ServerAnswer.errorJson 500 ⟨"Proxy error", none⟩⟩
    ∧ proxyOpenApi (ForwardOutcome.failed m)
      = ⟨1, ServerAnswer.errorJson 500 ⟨"Proxy error", some m⟩⟩ :=
  ⟨rfl, rfl⟩

end Mukkai
